import Mathlib

/-!
Verification of the secmetrics repository (Go): the metrics aggregator
(pkg/metrics/metrics.go) and the report builder (pkg/reporting/reporting.go).

Go float64 values are embedded as exact rationals extended with signed
infinities and NaN (GoFloat below). Finite arithmetic is exact rational
arithmetic; the special values follow IEEE-754 rules for the operations the
source uses (add, mul, div, ordered comparison, equality). Signed zero is not
modelled (no claim depends on it). Go time.Time values are embedded as Nat
nanoseconds since the epoch; the two second-resolution Format layouts used by
the source are modelled by a single function rendering the whole-seconds value.
-/

/-- Embedding of Go float64: a finite rational, a signed infinity
(true = positive), or NaN. -/
inductive GoFloat where
  | fin : ℚ → GoFloat
  | inf : Bool → GoFloat
  | nan : GoFloat
deriving DecidableEq

/-- IEEE-754 addition on the embedding (exact on finite values). -/
def GoFloat.add : GoFloat → GoFloat → GoFloat
  | .nan, _ => .nan
  | _, .nan => .nan
  | .inf s, .inf t => if s = t then .inf s else .nan
  | .inf s, .fin _ => .inf s
  | .fin _, .inf t => .inf t
  | .fin a, .fin b => .fin (a + b)

/-- IEEE-754 multiplication on the embedding (exact on finite values). -/
def GoFloat.mul : GoFloat → GoFloat → GoFloat
  | .nan, _ => .nan
  | _, .nan => .nan
  | .inf s, .inf t => .inf (s == t)
  | .inf s, .fin b => if b = 0 then .nan else .inf (s == decide (0 < b))
  | .fin a, .inf t => if a = 0 then .nan else .inf (t == decide (0 < a))
  | .fin a, .fin b => .fin (a * b)

/-- IEEE-754 division on the embedding: finite / 0 is a signed infinity
(NaN for 0 / 0), matching Go float64 division by an unsigned zero. -/
def GoFloat.div : GoFloat → GoFloat → GoFloat
  | .nan, _ => .nan
  | _, .nan => .nan
  | .inf _, .inf _ => .nan
  | .inf s, .fin b => if b < 0 then .inf (!s) else .inf s
  | .fin _, .inf _ => .fin 0
  | .fin a, .fin b =>
      if b = 0 then (if a = 0 then .nan else .inf (decide (0 < a)))
      else .fin (a / b)

/-- Go float64 comparison a <= b (false whenever either side is NaN). -/
def GoFloat.le : GoFloat → GoFloat → Bool
  | .nan, _ => false
  | _, .nan => false
  | .inf s, .inf t => !s || t
  | .inf s, .fin _ => !s
  | .fin _, .inf t => t
  | .fin a, .fin b => decide (a ≤ b)

/-- Go float64 comparison a >= b (false whenever either side is NaN). -/
def GoFloat.ge (a b : GoFloat) : Bool := GoFloat.le b a

/-- Go float64 equality == (false whenever either side is NaN). -/
def GoFloat.beq : GoFloat → GoFloat → Bool
  | .nan, _ => false
  | _, .nan => false
  | .inf s, .inf t => s == t
  | .fin a, .fin b => a == b
  | _, _ => false

/-- True exactly on finite values (neither infinite nor NaN). -/
def GoFloat.isFinite : GoFloat → Bool
  | .fin _ => true
  | _ => false

/-- Render a nonnegative rational with one decimal digit: the value in
tenths is rounded to the nearest integer, ties to even (the rounding Go fmt
uses at the printed precision), working directly on numerator and
denominator. -/
def fmtFin1Nonneg (q : ℚ) : String :=
  let num : ℤ := q.num * 10
  let den : ℤ := (q.den : ℤ)
  let f : ℤ := num / den
  let r : ℤ := num % den
  let n : ℤ :=
    if 2 * r < den then f else if den < 2 * r then f + 1
    else if f % 2 = 0 then f else f + 1
  toString (n.toNat / 10) ++ "." ++ toString (n.toNat % 10)

/-- Embedding of fmt.Sprintf with the verb for one decimal place applied to a
float64: finite values are rounded to one decimal digit, the special values
print as Go prints them. -/
def GoFloat.fmt1 : GoFloat → String
  | .nan => "NaN"
  | .inf true => "+Inf"
  | .inf false => "-Inf"
  | .fin q => if q < 0 then "-" ++ fmtFin1Nonneg (-q) else fmtFin1Nonneg q

/-- Embedding of the two second-resolution time.Time Format layouts the
source uses (the date-time layout and the compact numeric layout): both have
one-second resolution, modelled as the whole-seconds value of the Nat
nanosecond timestamp rendered in decimal. -/
def goTimeFormatSeconds (t : Nat) : String :=
  toString (t / 1000000000)

namespace metrics

/-- MetricType from metrics.go (a string-typed enumeration). -/
abbrev MetricType := String

def TypeVulnerability : MetricType := "vulnerability"
def TypeIncident : MetricType := "incident"
def TypeCompliance : MetricType := "compliance"
def TypeDetection : MetricType := "detection"
def TypeResponse : MetricType := "response"
def TypePrevention : MetricType := "prevention"
def TypeTraining : MetricType := "training"
def TypeRisk : MetricType := "risk"

/-- SecurityMetric from metrics.go; Timestamp is Nat nanoseconds. -/
structure SecurityMetric where
  ID : String
  Name : String
  Type_ : MetricType
  Value : GoFloat
  Unit : String
  Target : GoFloat
  Status : String
  Timestamp : Nat
  Description : String
  Category : String
deriving DecidableEq

/-- KPIKey from metrics.go (a string-typed enumeration). -/
abbrev KPIKey := String

/-- KPI from metrics.go; LastUpdated is Nat nanoseconds. -/
structure KPI where
  Key : KPIKey
  Name : String
  Description : String
  Value : GoFloat
  Target : GoFloat
  Unit : String
  Status : String
  Trend : String
  LastUpdated : Nat
  Category : String
deriving DecidableEq

/-- MetricsSummary from metrics.go. -/
structure MetricsSummary where
  TotalMetrics : Nat
  TotalKPIS : Nat
  ComplianceScore : GoFloat
  RiskScore : GoFloat
  OverallHealth : String
  LastUpdated : Nat
deriving DecidableEq

/-- MetricsCollector from metrics.go. -/
structure MetricsCollector where
  metrics : List SecurityMetric
  kpis : List KPI
  summary : MetricsSummary
deriving DecidableEq

/-- NewMetricsCollector: empty collections and a zero-valued summary
(the Go zero value of MetricsSummary: zero counts, zero scores, empty
OverallHealth string, zero time). -/
def NewMetricsCollector : MetricsCollector :=
  { metrics := []
    kpis := []
    summary :=
      { TotalMetrics := 0
        TotalKPIS := 0
        ComplianceScore := GoFloat.fin 0
        RiskScore := GoFloat.fin 0
        OverallHealth := ""
        LastUpdated := 0 } }

/-- GetMetricByType: filters the metric collection by category tag. -/
def MetricsCollector.GetMetricByType (c : MetricsCollector)
    (metricType : MetricType) : List SecurityMetric :=
  c.metrics.filter (fun metric => metric.Type_ == metricType)

/-- GetComplianceScore: a single pass over the compliance-tagged metrics
accumulating total += 1.0 and weighted += Value / Target * 100.0, then
0 if total == 0 (float equality) else weighted / total. -/
def MetricsCollector.GetComplianceScore (c : MetricsCollector) : GoFloat :=
  let p := (c.GetMetricByType TypeCompliance).foldl
    (fun (acc : GoFloat × GoFloat) metric =>
      (acc.1.add (GoFloat.fin 1),
       acc.2.add ((metric.Value.div metric.Target).mul (GoFloat.fin 100))))
    (GoFloat.fin 0, GoFloat.fin 0)
  if p.1.beq (GoFloat.fin 0) then GoFloat.fin 0 else p.2.div p.1

/-- GetRiskScore: a single pass over the risk-tagged metrics accumulating
total += 1.0 and weighted += Value, then 0 if total == 0 else
weighted / total. -/
def MetricsCollector.GetRiskScore (c : MetricsCollector) : GoFloat :=
  let p := (c.GetMetricByType TypeRisk).foldl
    (fun (acc : GoFloat × GoFloat) metric =>
      (acc.1.add (GoFloat.fin 1), acc.2.add metric.Value))
    (GoFloat.fin 0, GoFloat.fin 0)
  if p.1.beq (GoFloat.fin 0) then GoFloat.fin 0 else p.2.div p.1

/-- determineHealth from metrics.go: ordered threshold checks, first match
wins, on Go float64 comparisons. -/
def determineHealth (compliance risk : GoFloat) : String :=
  if compliance.ge (GoFloat.fin 90) && risk.le (GoFloat.fin 30) then "HEALTHY"
  else if compliance.ge (GoFloat.fin 70) && risk.le (GoFloat.fin 50) then "GOOD"
  else if compliance.ge (GoFloat.fin 50) && risk.le (GoFloat.fin 70) then "FAIR"
  else "POOR"

/-- updateSummary: recomputes every summary field from the current
collections; now is the time.Now() value stamped into LastUpdated. -/
def MetricsCollector.updateSummary (c : MetricsCollector) (now : Nat) :
    MetricsCollector :=
  { c with summary :=
      { TotalMetrics := c.metrics.length
        TotalKPIS := c.kpis.length
        ComplianceScore := c.GetComplianceScore
        RiskScore := c.GetRiskScore
        OverallHealth := determineHealth c.GetComplianceScore c.GetRiskScore
        LastUpdated := now } }

/-- AddMetric: stamps the metric with the current time, appends it, and
triggers the synchronous summary recomputation. -/
def MetricsCollector.AddMetric (c : MetricsCollector)
    (metric : SecurityMetric) (now : Nat) : MetricsCollector :=
  let stamped := { metric with Timestamp := now }
  let c := { c with metrics := c.metrics ++ [stamped] }
  c.updateSummary now

/-- AddKPI: stamps the KPI with the current time, appends it, and triggers
the synchronous summary recomputation. -/
def MetricsCollector.AddKPI (c : MetricsCollector) (kpi : KPI) (now : Nat) :
    MetricsCollector :=
  let stamped := { kpi with LastUpdated := now }
  let c := { c with kpis := c.kpis ++ [stamped] }
  c.updateSummary now

/-- GetSummary: returns the stored summary with no recomputation. -/
def MetricsCollector.GetSummary (c : MetricsCollector) : MetricsSummary :=
  c.summary

end metrics

namespace reporting

/-- ReportFormat from reporting.go (a string-typed enumeration). -/
abbrev ReportFormat := String

def FormatJSON : ReportFormat := "json"
def FormatYAML : ReportFormat := "yaml"
def FormatMarkdown : ReportFormat := "markdown"
def FormatHTML : ReportFormat := "html"
def FormatCSV : ReportFormat := "csv"

/-- MetricData from reporting.go. -/
structure MetricData where
  Name : String
  Type_ : String
  Value : GoFloat
  Target : GoFloat
  Status : String
  Trend : String
  Timestamp : Nat
deriving DecidableEq

/-- KPIData from reporting.go. -/
structure KPIData where
  Key : String
  Name : String
  Value : GoFloat
  Target : GoFloat
  Status : String
  Trend : String
  Unit : String
  Category : String
deriving DecidableEq

/-- ExecutiveSummary from reporting.go. -/
structure ExecutiveSummary where
  OverallHealth : String
  ComplianceScore : GoFloat
  RiskScore : GoFloat
  TopConcerns : List String
  TopAchievements : List String
  Recommendations : List String
  ActionItems : List String
deriving DecidableEq

/-- TechnicalSummary from reporting.go. -/
structure TechnicalSummary where
  MetricsCovered : Int
  KPIsTracked : Int
  AlertsActive : Int
  IncidentsLastMonth : Int
  VulnerabilitiesOpen : Int
  ComplianceStatus : String
  DetectionRate : GoFloat
  ResponseTime : GoFloat
deriving DecidableEq

/-- The Go zero value of ExecutiveSummary. -/
def emptyExecutiveSummary : ExecutiveSummary :=
  { OverallHealth := ""
    ComplianceScore := GoFloat.fin 0
    RiskScore := GoFloat.fin 0
    TopConcerns := []
    TopAchievements := []
    Recommendations := []
    ActionItems := [] }

/-- The Go zero value of TechnicalSummary. -/
def emptyTechnicalSummary : TechnicalSummary :=
  { MetricsCovered := 0
    KPIsTracked := 0
    AlertsActive := 0
    IncidentsLastMonth := 0
    VulnerabilitiesOpen := 0
    ComplianceStatus := ""
    DetectionRate := GoFloat.fin 0
    ResponseTime := GoFloat.fin 0 }

/-- Report from reporting.go; CreatedAt is Nat nanoseconds. -/
structure Report where
  ID : String
  Title : String
  Description : String
  Format : ReportFormat
  CreatedAt : Nat
  Metrics : List MetricData
  KPIS : List KPIData
  Executive : ExecutiveSummary
  Technical : TechnicalSummary
  Recommendations : List String
deriving DecidableEq

/-- ReportGenerator from reporting.go: the internal registry of reports. -/
structure ReportGenerator where
  reports : List Report
deriving DecidableEq

/-- NewReportGenerator: an empty registry. -/
def NewReportGenerator : ReportGenerator := { reports := [] }

/-- GenerateReport (the ReportGenerator method): allocates a Report whose id
is the string rpt- followed by the formatted current time at one-second
resolution, with empty line-item sequences and zero-valued summary blocks,
appends it to the registry, and returns it together with the updated
generator state (the Go method mutates the receiver and returns a pointer). -/
def ReportGenerator.GenerateReport (g : ReportGenerator)
    (title description : String) (format : ReportFormat) (now : Nat) :
    Report × ReportGenerator :=
  let report : Report :=
    { ID := "rpt-" ++ goTimeFormatSeconds now
      Title := title
      Description := description
      Format := format
      CreatedAt := now
      Metrics := []
      KPIS := []
      Executive := emptyExecutiveSummary
      Technical := emptyTechnicalSummary
      Recommendations := [] }
  (report, { g with reports := g.reports ++ [report] })

/-- Apply f to the first report in the list whose ID matches reportID,
leaving all others unchanged (the Go loop with break). -/
def updateFirstReport (rs : List Report) (reportID : String)
    (f : Report → Report) : List Report :=
  match rs with
  | [] => []
  | r :: rest =>
      if r.ID == reportID then f r :: rest
      else r :: updateFirstReport rest reportID f

/-- AddMetric (reporting): appends the metric line item to the first report
whose id matches; no-op when no report matches. -/
def ReportGenerator.AddMetric (g : ReportGenerator) (reportID : String)
    (metric : MetricData) : ReportGenerator :=
  let rs := updateFirstReport g.reports reportID
    (fun r => { r with Metrics := r.Metrics ++ [metric] })
  { g with reports := rs }

/-- AddKPI (reporting): appends the KPI line item to the first report whose
id matches; no-op when no report matches. -/
def ReportGenerator.AddKPI (g : ReportGenerator) (reportID : String)
    (kpi : KPIData) : ReportGenerator :=
  let rs := updateFirstReport g.reports reportID
    (fun r => { r with KPIS := r.KPIS ++ [kpi] })
  { g with reports := rs }

/-- SetExecutiveSummary: overwrites the executive block of the first report
whose id matches; no-op when no report matches. -/
def ReportGenerator.SetExecutiveSummary (g : ReportGenerator)
    (reportID : String) (summary : ExecutiveSummary) : ReportGenerator :=
  let rs := updateFirstReport g.reports reportID
    (fun r => { r with Executive := summary })
  { g with reports := rs }

/-- SetTechnicalSummary: overwrites the technical block of the first report
whose id matches; no-op when no report matches. -/
def ReportGenerator.SetTechnicalSummary (g : ReportGenerator)
    (reportID : String) (summary : TechnicalSummary) : ReportGenerator :=
  let rs := updateFirstReport g.reports reportID
    (fun r => { r with Technical := summary })
  { g with reports := rs }

/-- GetReport: linear scan for the first report with the given id; the Go
method returns a pointer or nil, embedded as an Option. -/
def ReportGenerator.GetReport (g : ReportGenerator) (reportID : String) :
    Option Report :=
  g.reports.find? (fun r => r.ID == reportID)

/-- GenerateMarkdownReport from reporting.go: heading, bold-labeled metadata
lines, and the executive-summary table with its three data rows; metric and
KPI line items are never rendered. -/
def GenerateMarkdownReport (report : Report) : String :=
  "# Security Metrics Report\n\n"
    ++ ("**Report ID:** " ++ report.ID ++ "\n\n")
    ++ ("**Title:** " ++ report.Title ++ "\n")
    ++ ("**Created:** " ++ goTimeFormatSeconds report.CreatedAt ++ "\n\n")
    ++ "## Executive Summary\n\n"
    ++ "| Metric | Value |\n"
    ++ "|--------|-------|\n"
    ++ ("| Overall Health | " ++ report.Executive.OverallHealth ++ " |\n")
    ++ ("| Compliance Score | "
        ++ (report.Executive.ComplianceScore.fmt1 ++ "%") ++ " |\n")
    ++ ("| Risk Score | " ++ report.Executive.RiskScore.fmt1 ++ " |\n\n")

/-- One CSV data row: name, value and target to one decimal, status, trend. -/
def csvRow (metric : MetricData) : String :=
  metric.Name ++ "," ++ metric.Value.fmt1 ++ "," ++ metric.Target.fmt1
    ++ "," ++ metric.Status ++ "," ++ metric.Trend ++ "\n"

/-- GenerateCSVReport from reporting.go: the fixed header row, then one row
per metric line item in order; KPI line items are not rendered. -/
def GenerateCSVReport (report : Report) : String :=
  report.Metrics.foldl (fun acc metric => acc ++ csvRow metric)
    "Metric Name,Value,Target,Status,Trend\n"

end reporting

namespace metrics

/-- Written from the spec words for C1: the compliance score as the simple
average over all compliance-tagged metrics of (value / target) * 100, and 0
when no such metric exists; to be compared with GetComplianceScore. -/
def complianceScoreSpec (ms : List SecurityMetric) : GoFloat :=
  let cs := ms.filter (fun metric => metric.Type_ == TypeCompliance)
  if cs.length = 0 then GoFloat.fin 0
  else
    ((cs.map (fun metric => (metric.Value.div metric.Target).mul
        (GoFloat.fin 100))).foldl GoFloat.add (GoFloat.fin 0)).div
      (GoFloat.fin cs.length)

/-- Written from the spec words for C5: the risk score as the simple average
of the raw values of all risk-tagged metrics, and 0 when no such metric
exists; to be compared with GetRiskScore. -/
def riskScoreSpec (ms : List SecurityMetric) : GoFloat :=
  let rs := ms.filter (fun metric => metric.Type_ == TypeRisk)
  if rs.length = 0 then GoFloat.fin 0
  else
    ((rs.map (fun metric => metric.Value)).foldl GoFloat.add
        (GoFloat.fin 0)).div (GoFloat.fin rs.length)

/-- Written from the spec words for C4: the health tier as ordered threshold
checks over exact rational scores, first match wins; to be compared with
determineHealth. -/
def healthSpecTable (compliance risk : ℚ) : String :=
  if 90 ≤ compliance ∧ risk ≤ 30 then "HEALTHY"
  else if 70 ≤ compliance ∧ risk ≤ 50 then "GOOD"
  else if 50 ≤ compliance ∧ risk ≤ 70 then "FAIR"
  else "POOR"

/-- A mutation of the collector: one AddMetric or AddKPI call together with
its time.Now() value. -/
inductive CollectorOp where
  | addMetric : SecurityMetric → Nat → CollectorOp
  | addKPI : KPI → Nat → CollectorOp
deriving DecidableEq

/-- Apply one mutation to a collector. -/
def applyOp (c : MetricsCollector) : CollectorOp → MetricsCollector
  | CollectorOp.addMetric metric now => c.AddMetric metric now
  | CollectorOp.addKPI kpi now => c.AddKPI kpi now

/-- Apply a sequence of mutations in order. -/
def applyOps (c : MetricsCollector) (ops : List CollectorOp) :
    MetricsCollector :=
  ops.foldl applyOp c

/-- The C2 invariant: the stored summary agrees with the current collections
on every derived field. -/
def SummaryConsistent (c : MetricsCollector) : Prop :=
  c.GetSummary.TotalMetrics = c.metrics.length ∧
  c.GetSummary.TotalKPIS = c.kpis.length ∧
  c.GetSummary.ComplianceScore = c.GetComplianceScore ∧
  c.GetSummary.RiskScore = c.GetRiskScore ∧
  c.GetSummary.OverallHealth =
    determineHealth c.GetComplianceScore c.GetRiskScore

/-- A compliance-tagged metric with the given finite value and target. -/
def complianceMetricVT (v t : ℚ) : SecurityMetric :=
  { ID := "m"
    Name := "m"
    Type_ := TypeCompliance
    Value := GoFloat.fin v
    Unit := "%"
    Target := GoFloat.fin t
    Status := ""
    Timestamp := 0
    Description := ""
    Category := "" }

/-- A collector holding exactly the given metrics, no KPIs, and the
zero-valued summary a fresh collector starts with. -/
def collectorWithMetrics (ms : List SecurityMetric) : MetricsCollector :=
  { metrics := ms, kpis := [], summary := NewMetricsCollector.summary }

end metrics

/-- Split a character list into lines at newline characters (structural
recursion, so the kernel can evaluate it on concrete renders). -/
def splitLinesAux : List Char → List Char → List (List Char)
  | [], acc => [acc.reverse]
  | c :: rest, acc =>
      if c = '\n' then acc.reverse :: splitLinesAux rest []
      else splitLinesAux rest (c :: acc)

/-- Count the data rows of the rendered Markdown table: lines that start
with a pipe and a space and are not the fixed header row. -/
def mdDataRowCount (s : String) : Nat :=
  ((splitLinesAux s.data []).filter
    (fun line =>
      decide (line.take 2 = ['|', ' ']) &&
      decide (line ≠ String.data "| Metric | Value |"))).length

/-- Concatenate a list of string chunks (right fold), used to state the
renderers as flat chunk sequences. -/
def concatChunks (l : List String) : String :=
  l.foldr (fun a b => a ++ b) ""

namespace reporting

/-- A sample metric line item. -/
def sampleMetricData : MetricData :=
  { Name := "Vulnerabilities Open"
    Type_ := "count"
    Value := GoFloat.fin 45
    Target := GoFloat.fin 20
    Status := "ABOVE_TARGET"
    Trend := "IMPROVING"
    Timestamp := 0 }

/-- A sample KPI line item. -/
def sampleKPIData : KPIData :=
  { Key := "mttr"
    Name := "Mean Time to Respond (MTTR)"
    Value := GoFloat.fin 2
    Target := GoFloat.fin 1
    Status := "BELOW_TARGET"
    Trend := "IMPROVING"
    Unit := "hours"
    Category := "Response" }

/-- A report carrying several metric and KPI line items, for exercising the
renderers on a nonempty report. -/
def sampleLoadedReport : Report :=
  { ID := "rpt-1"
    Title := "Security Metrics Report"
    Description := "d"
    Format := FormatMarkdown
    CreatedAt := 1000000000
    Metrics := [sampleMetricData, sampleMetricData, sampleMetricData]
    KPIS := [sampleKPIData, sampleKPIData]
    Executive :=
      { emptyExecutiveSummary with
          OverallHealth := "GOOD"
          ComplianceScore := GoFloat.fin 92
          RiskScore := GoFloat.fin 45 }
    Technical := emptyTechnicalSummary
    Recommendations := [] }

/-- One createReport request: its arguments and its time.Now() value. -/
structure CreateReq where
  title : String
  description : String
  format : ReportFormat
  now : Nat
deriving DecidableEq

/-- The report a single createReport call allocates for a request. -/
def reportOfReq (req : CreateReq) : Report :=
  (ReportGenerator.GenerateReport NewReportGenerator req.title
    req.description req.format req.now).1

/-- Run a sequence of createReport calls against a generator. -/
def generateMany (g : ReportGenerator) (reqs : List CreateReq) :
    ReportGenerator :=
  reqs.foldl
    (fun g req =>
      (g.GenerateReport req.title req.description req.format req.now).2) g

/-- The generator obtained from two createReport calls half a second apart,
both inside the same wall-clock second. -/
def sameSecondGenerator : ReportGenerator :=
  generateMany NewReportGenerator
    [{ title := "A", description := "a", format := FormatMarkdown, now := 0 },
     { title := "B", description := "b", format := FormatMarkdown,
       now := 500000000 }]

/-- A generator holding one report created at second 1. -/
def sampleGenerator : ReportGenerator :=
  (NewReportGenerator.GenerateReport "T" "D" FormatCSV 1000000000).2

end reporting

namespace metrics

/-- The single-pass loop of the scoring functions computes the pair of the
float element count and the left-fold sum of the per-element contributions. -/
theorem foldl_count_sum (f : SecurityMetric → GoFloat) :
    ∀ (l : List SecurityMetric) (q : ℚ) (a : GoFloat),
      l.foldl (fun (acc : GoFloat × GoFloat) metric =>
          (acc.1.add (GoFloat.fin 1), acc.2.add (f metric)))
          (GoFloat.fin q, a)
        = (GoFloat.fin (q + l.length),
           l.foldl (fun acc metric => acc.add (f metric)) a)
  | [], q, a => by simp
  | metric :: l, q, a => by
      simp only [List.foldl_cons, List.length_cons]
      rw [show (GoFloat.fin q).add (GoFloat.fin 1) = GoFloat.fin (q + 1) from rfl]
      rw [foldl_count_sum f l (q + 1) (a.add (f metric))]
      congr 2
      push_cast
      ring

/-- GetComplianceScore agrees with the spec-side simple average everywhere. -/
theorem getComplianceScore_eq_spec (c : MetricsCollector) :
    c.GetComplianceScore = complianceScoreSpec c.metrics := by
  unfold MetricsCollector.GetComplianceScore complianceScoreSpec
    MetricsCollector.GetMetricByType
  rw [foldl_count_sum]
  simp only [List.foldl_map, GoFloat.beq, zero_add, beq_iff_eq,
    Nat.cast_eq_zero]

/-- GetRiskScore agrees with the spec-side simple average everywhere. -/
theorem getRiskScore_eq_spec (c : MetricsCollector) :
    c.GetRiskScore = riskScoreSpec c.metrics := by
  unfold MetricsCollector.GetRiskScore riskScoreSpec
    MetricsCollector.GetMetricByType
  rw [foldl_count_sum]
  simp only [List.foldl_map, GoFloat.beq, zero_add, beq_iff_eq,
    Nat.cast_eq_zero]

end metrics

namespace metrics

/-- C1: For every collector, complianceScore() equals the simple average
over all compliance-tagged metrics of (value / target) * 100, equals 0 when
no compliance-tagged metric exists, and for exactly the two compliance
metrics with value 80 and target 100 and value 100 and target 100 it equals
90.0 (the simple average of per-metric ratios, not a value-weighted
average). -/
theorem C1_complianceScore_simple_average :
    (∀ c : MetricsCollector,
      c.GetComplianceScore = complianceScoreSpec c.metrics) ∧
    (∀ c : MetricsCollector,
      (c.metrics.filter
        (fun metric => metric.Type_ == TypeCompliance)).length = 0 →
      c.GetComplianceScore = GoFloat.fin 0) ∧
    (collectorWithMetrics [complianceMetricVT 80 100,
      complianceMetricVT 100 100]).GetComplianceScore = GoFloat.fin 90 := by
  refine ⟨getComplianceScore_eq_spec, ?_, ?_⟩
  · intro c h
    rw [getComplianceScore_eq_spec]
    unfold complianceScoreSpec
    simp [h]
  · norm_num [MetricsCollector.GetComplianceScore,
      MetricsCollector.GetMetricByType, collectorWithMetrics,
      complianceMetricVT, TypeCompliance, GoFloat.add, GoFloat.div,
      GoFloat.mul, GoFloat.beq]

/-- C1 witness: a freshly constructed collector has no compliance-tagged
metric and compliance score 0. -/
theorem C1_witness :
    NewMetricsCollector.GetComplianceScore = GoFloat.fin 0 :=
  C1_complianceScore_simple_average.2.1 NewMetricsCollector rfl

/-- C5: For every collector, riskScore() equals the simple average of the
raw values of all risk-tagged metrics (0 when none exists), and on an empty
metric collection both complianceScore() and riskScore() are 0. -/
theorem C5_riskScore_simple_average :
    (∀ c : MetricsCollector, c.GetRiskScore = riskScoreSpec c.metrics) ∧
    (∀ c : MetricsCollector, c.metrics = [] →
      c.GetComplianceScore = GoFloat.fin 0 ∧
      c.GetRiskScore = GoFloat.fin 0) := by
  refine ⟨getRiskScore_eq_spec, fun c h => ⟨?_, ?_⟩⟩
  · rw [getComplianceScore_eq_spec]
    unfold complianceScoreSpec
    simp [h]
  · rw [getRiskScore_eq_spec]
    unfold riskScoreSpec
    simp [h]

/-- C5 witness: both scores are 0 on the freshly constructed collector,
whose collections are empty. -/
theorem C5_witness :
    NewMetricsCollector.GetComplianceScore = GoFloat.fin 0 ∧
    NewMetricsCollector.GetRiskScore = GoFloat.fin 0 :=
  C5_riskScore_simple_average.2 NewMetricsCollector rfl

/-- C4: the overall-health tier is a pure function of the two scores given
by ordered threshold checks, first match wins, per the table; and the pair
of scores 92 and 45.5 yields GOOD. -/
theorem C4_health_tier_table :
    (∀ compliance risk : ℚ,
      determineHealth (GoFloat.fin compliance) (GoFloat.fin risk)
        = healthSpecTable compliance risk) ∧
    determineHealth (GoFloat.fin 92) (GoFloat.fin (91 / 2)) = "GOOD" := by
  constructor
  · intro compliance risk
    simp only [determineHealth, healthSpecTable, GoFloat.ge, GoFloat.le,
      Bool.and_eq_true, decide_eq_true_eq]
  · norm_num [determineHealth, GoFloat.ge, GoFloat.le]

/-- C10: the summary of a freshly constructed collector is the Go zero
value: zero totals, zero scores, and an empty OverallHealth string, which
differs from the tier POOR that determineHealth would compute from two zero
scores. -/
theorem C10_fresh_summary_is_zero_value :
    NewMetricsCollector.GetSummary.TotalMetrics = 0 ∧
    NewMetricsCollector.GetSummary.TotalKPIS = 0 ∧
    NewMetricsCollector.GetSummary.ComplianceScore = GoFloat.fin 0 ∧
    NewMetricsCollector.GetSummary.RiskScore = GoFloat.fin 0 ∧
    NewMetricsCollector.GetSummary.OverallHealth = "" ∧
    determineHealth (GoFloat.fin 0) (GoFloat.fin 0) = "POOR" ∧
    NewMetricsCollector.GetSummary.OverallHealth ≠ "POOR" := by
  decide

/-- updateSummary establishes the summary-consistency invariant. -/
theorem summaryConsistent_updateSummary (c : MetricsCollector) (now : Nat) :
    SummaryConsistent (c.updateSummary now) :=
  ⟨rfl, rfl, rfl, rfl, rfl⟩

/-- Every single mutation ends in updateSummary, so it establishes the
invariant. -/
theorem summaryConsistent_applyOp (c : MetricsCollector) (op : CollectorOp) :
    SummaryConsistent (applyOp c op) := by
  cases op with
  | addMetric metric now => exact summaryConsistent_updateSummary _ now
  | addKPI kpi now => exact summaryConsistent_updateSummary _ now

/-- The invariant holds after any nonempty run of mutations (helper). -/
theorem summaryConsistent_applyOps_cons (c : MetricsCollector)
    (op : CollectorOp) (rest : List CollectorOp) :
    SummaryConsistent (applyOps c (op :: rest)) := by
  induction rest generalizing c op with
  | nil => exact summaryConsistent_applyOp c op
  | cons op2 rest2 ih => exact ih (applyOp c op) op2

/-- C2 (amended): after at least one addMetric/addKPI call, from any
starting collector state, the stored summary reflects the current
collections: totals equal the collection lengths, the stored scores equal
the recomputed scores, and OverallHealth is the tier computed from them. -/
theorem C2_summary_reflects_after_mutation (c : MetricsCollector)
    (ops : List CollectorOp) (h : ops ≠ []) :
    SummaryConsistent (applyOps c ops) := by
  cases ops with
  | nil => exact absurd rfl h
  | cons op rest => exact summaryConsistent_applyOps_cons c op rest

/-- C2 witness: the invariant holds after one concrete AddMetric call on a
fresh collector. -/
theorem C2_witness :
    SummaryConsistent (applyOps NewMetricsCollector
      [CollectorOp.addMetric (complianceMetricVT 80 100) 5]) :=
  C2_summary_reflects_after_mutation NewMetricsCollector _
    (List.cons_ne_nil _ _)

/-- C2 counterexample: the claim fails on the freshly constructed collector
(a reachable state): its stored OverallHealth is the empty string, not the
tier determineHealth computes from its two zero scores, so the summary does
not reflect the current collections there. -/
theorem C2_counterexample_fresh_collector :
    ¬ SummaryConsistent NewMetricsCollector := by
  unfold SummaryConsistent
  decide

/-- C3 counterexample: a collector holding one compliance-tagged metric
with value 80 and target 0 is not skipped: the division is performed and
the resulting compliance score is positive infinity, a non-finite value
propagated into the score. -/
theorem C3_counterexample_zero_target_propagates :
    (collectorWithMetrics [complianceMetricVT 80 0]).GetComplianceScore
      = GoFloat.inf true ∧
    ((collectorWithMetrics
      [complianceMetricVT 80 0]).GetComplianceScore).isFinite = false := by
  constructor
  · norm_num [MetricsCollector.GetComplianceScore,
      MetricsCollector.GetMetricByType, collectorWithMetrics,
      complianceMetricVT, TypeCompliance, GoFloat.add, GoFloat.div,
      GoFloat.mul, GoFloat.beq]
  · norm_num [MetricsCollector.GetComplianceScore,
      MetricsCollector.GetMetricByType, collectorWithMetrics,
      complianceMetricVT, TypeCompliance, GoFloat.add, GoFloat.div,
      GoFloat.mul, GoFloat.beq, GoFloat.isFinite]

/-- C3 (amended): GetComplianceScore does not guard target = 0: a
compliance-tagged metric with a positive value and target 0 is counted and
divided, and the collector holding only that metric gets compliance score
positive infinity rather than having the metric skipped. -/
theorem C3_zero_target_metric_not_skipped (v : ℚ) (hv : 0 < v) :
    (collectorWithMetrics [complianceMetricVT v 0]).GetComplianceScore
      = GoFloat.inf true := by
  have hv0 : v ≠ 0 := ne_of_gt hv
  norm_num [MetricsCollector.GetComplianceScore,
    MetricsCollector.GetMetricByType, collectorWithMetrics,
    complianceMetricVT, TypeCompliance, GoFloat.add, GoFloat.div,
    GoFloat.mul, GoFloat.beq, hv0, hv]

/-- C3 witness: the amended statement at the concrete value 80. -/
theorem C3_witness :
    (collectorWithMetrics [complianceMetricVT 80 0]).GetComplianceScore
      = GoFloat.inf true :=
  C3_zero_target_metric_not_skipped 80 (by decide)

end metrics

namespace reporting

/-- C6: for every Report, the Markdown render is exactly the heading, the
bold-labeled metadata lines (report id, title, creation time), and the
two-column Metric/Value table whose only data rows are Overall Health,
Compliance Score (one decimal, percent suffix), and Risk Score (one
decimal); the render never reads the metric or KPI line items, and on a
report carrying three metric and two KPI line items the table still has
exactly three data rows. -/
theorem C6_markdown_exactly_three_rows :
    (∀ report : Report,
      GenerateMarkdownReport report = concatChunks
        ["# Security Metrics Report\n\n",
         "**Report ID:** ", report.ID, "\n\n",
         "**Title:** ", report.Title, "\n",
         "**Created:** ", goTimeFormatSeconds report.CreatedAt, "\n\n",
         "## Executive Summary\n\n",
         "| Metric | Value |\n",
         "|--------|-------|\n",
         "| Overall Health | ", report.Executive.OverallHealth, " |\n",
         "| Compliance Score | ", report.Executive.ComplianceScore.fmt1,
         "%", " |\n",
         "| Risk Score | ", report.Executive.RiskScore.fmt1, " |\n\n"]) ∧
    (∀ (report : Report) (ms : List MetricData) (ks : List KPIData),
      GenerateMarkdownReport { report with Metrics := ms, KPIS := ks }
        = GenerateMarkdownReport report) ∧
    mdDataRowCount (GenerateMarkdownReport sampleLoadedReport) = 3 := by
  refine ⟨?_, fun report ms ks => rfl, ?_⟩
  · intro report
    simp only [GenerateMarkdownReport, concatChunks, List.foldr_cons,
      List.foldr_nil, String.append_assoc, String.append_empty]
  · decide

/-- The CSV loop over the metric line items appends one row per item to the
running string. -/
theorem foldl_append_csvRows :
    ∀ (l : List MetricData) (s : String),
      l.foldl (fun acc metric => acc ++ csvRow metric) s
        = s ++ concatChunks (l.map csvRow)
  | [], s => by simp [concatChunks, String.append_empty]
  | metric :: l, s => by
      simp only [List.foldl_cons, List.map_cons]
      rw [foldl_append_csvRows l (s ++ csvRow metric)]
      simp [concatChunks, String.append_assoc]

/-- C7: for every Report, the CSV render is exactly the fixed header row
followed by one row per metric line item in order (values and targets to
one decimal); KPI line items never affect the output; and with zero metric
line items the output is exactly the header row. -/
theorem C7_csv_header_plus_metric_rows :
    (∀ report : Report,
      GenerateCSVReport report
        = "Metric Name,Value,Target,Status,Trend\n"
            ++ concatChunks (report.Metrics.map csvRow)) ∧
    (∀ (report : Report) (ks : List KPIData),
      GenerateCSVReport { report with KPIS := ks }
        = GenerateCSVReport report) ∧
    (∀ report : Report, report.Metrics = [] →
      GenerateCSVReport report
        = "Metric Name,Value,Target,Status,Trend\n") := by
  refine ⟨?_, fun report ks => rfl, ?_⟩
  · intro report
    exact foldl_append_csvRows report.Metrics _
  · intro report h
    unfold GenerateCSVReport
    rw [h]
    rfl

/-- C7 witness: the CSV render of a freshly created report (no metric line
items) is exactly the header row. -/
theorem C7_witness :
    GenerateCSVReport (reportOfReq
      { title := "T", description := "D", format := FormatCSV, now := 0 })
      = "Metric Name,Value,Target,Status,Trend\n" :=
  C7_csv_header_plus_metric_rows.2.2 _ rfl

/-- When no report in the list carries the given id, the first-match update
leaves the list unchanged. -/
theorem updateFirstReport_no_match (reportID : String) (f : Report → Report) :
    ∀ rs : List Report, (∀ r ∈ rs, r.ID ≠ reportID) →
      updateFirstReport rs reportID f = rs
  | [], _ => rfl
  | r :: rest, h => by
      have hr : (r.ID == reportID) = false := by
        simp [h r (List.mem_cons_self r rest)]
      simp [updateFirstReport, hr,
        updateFirstReport_no_match reportID f rest
          (fun x hx => h x (List.mem_cons_of_mem r hx))]

/-- C8: for every generator state and every id carried by no stored report,
getReport returns the not-found signal and both line-item append operations
are no-ops that leave the whole registry (hence every stored report, its
line items and summary blocks) unchanged. -/
theorem C8_unknown_id_is_noop (g : ReportGenerator) (reportID : String)
    (metric : MetricData) (kpi : KPIData)
    (h : ∀ r ∈ g.reports, r.ID ≠ reportID) :
    g.GetReport reportID = none ∧
    g.AddMetric reportID metric = g ∧
    g.AddKPI reportID kpi = g := by
  refine ⟨?_, ?_, ?_⟩
  · apply List.find?_eq_none.mpr
    intro r hr
    simp [h r hr]
  · unfold ReportGenerator.AddMetric
    rw [updateFirstReport_no_match _ _ _ h]
  · unfold ReportGenerator.AddKPI
    rw [updateFirstReport_no_match _ _ _ h]

/-- C8 witness: on a generator holding one report (id rpt-1), an unknown id
gives not-found and both appends are no-ops. -/
theorem C8_witness :
    sampleGenerator.GetReport "rpt-missing" = none ∧
    sampleGenerator.AddMetric "rpt-missing" sampleMetricData
      = sampleGenerator ∧
    sampleGenerator.AddKPI "rpt-missing" sampleKPIData = sampleGenerator :=
  C8_unknown_id_is_noop sampleGenerator "rpt-missing" sampleMetricData
    sampleKPIData (by decide)

/-- The id a createReport call assigns to its report. -/
theorem reportOfReq_ID (req : CreateReq) :
    (reportOfReq req).ID = "rpt-" ++ goTimeFormatSeconds req.now := rfl

/-- Replaying createReport calls appends one report per request. -/
theorem generateMany_reports :
    ∀ (reqs : List CreateReq) (g : ReportGenerator),
      (generateMany g reqs).reports = g.reports ++ reqs.map reportOfReq
  | [], g => by simp [generateMany]
  | req :: reqs, g => by
      have ih := generateMany_reports reqs
        ((g.GenerateReport req.title req.description req.format req.now).2)
      unfold generateMany at ih ⊢
      simp only [List.foldl_cons, List.map_cons]
      rw [ih]
      simp [ReportGenerator.GenerateReport, reportOfReq, NewReportGenerator]

/-- Prepending a fixed string to ids preserves distinctness. -/
theorem string_append_left_cancel (s a b : String) (h : s ++ a = s ++ b) :
    a = b := by
  have hd := congrArg String.data h
  simp only [String.data_append] at hd
  exact String.ext (List.append_cancel_left hd)

/-- C9 (amended): reports created on one generator within a single process
run have pairwise-distinct ids provided their creation times format to
pairwise-distinct second-resolution timestamps; the id is rpt- plus a
second-resolution timestamp, so creations falling in the same wall-clock
second collide instead. -/
theorem C9_ids_distinct_across_seconds (reqs : List CreateReq)
    (h : (reqs.map (fun req => goTimeFormatSeconds req.now)).Pairwise
      (fun a b => a ≠ b)) :
    ((generateMany NewReportGenerator reqs).reports.map Report.ID).Pairwise
      (fun a b => a ≠ b) := by
  rw [generateMany_reports]
  rw [List.pairwise_map] at h
  simp only [NewReportGenerator, List.nil_append, List.map_map,
    List.pairwise_map, Function.comp, reportOfReq_ID]
  refine List.Pairwise.imp ?_ h
  intro a b hab heq
  exact hab (string_append_left_cancel _ _ _ heq)

/-- C9 witness: two creations in distinct seconds (seconds 0 and 2) yield
distinct report ids. -/
theorem C9_witness :
    (((generateMany NewReportGenerator
      [{ title := "A", description := "a", format := FormatMarkdown,
         now := 0 },
       { title := "B", description := "b", format := FormatMarkdown,
         now := 2000000000 }]).reports.map Report.ID).Pairwise
      (fun a b => a ≠ b)) :=
  C9_ids_distinct_across_seconds _ (by decide)

/-- C9 counterexample: two createReport calls half a second apart, inside
the same wall-clock second, store two reports with the identical id rpt-0,
so the stored ids are not pairwise distinct. -/
theorem C9_counterexample_same_second_collision :
    sameSecondGenerator.reports.map Report.ID = ["rpt-0", "rpt-0"] ∧
    ¬ sameSecondGenerator.reports.Pairwise
      (fun r1 r2 => r1.ID ≠ r2.ID) := by
  constructor
  · decide
  · decide

end reporting
